import Mathlib

/-!
Verification of `setup.py` of the `thermod-monitor-mqtt` repository.

The script's only logic is:
  * `get_version()`: open the file `thermod-monitor-mqtt`, scan its lines for
    the first one `line` with `line.find('__version__') == 0`, `exec` that
    line in a fresh namespace and return the entry `__version__` of the
    namespace; if no such line exists, `exec(None, ...)` raises a TypeError.
  * `get_readme()`: return the entire contents of `README.md`.
  * a single top-level `setup(...)` call whose keyword arguments are
    evaluated left to right before `setup` itself runs.

Files are embedded as lists of lines, lines as lists of characters (without
the trailing newline, which is whitespace and irrelevant to every claim).
-/

/-- A line of a text file, as its list of characters. -/
abbrev Line := List Char

/-- A text file as the list of its lines, as produced by iterating over an
open Python text file. -/
abbrev PyFile := List Line

/-- The marker scanned for by `get_version` in setup.py. -/
def VERSION_MARKER : Line := "__version__".data

/-- Helper for Python `str.find`: the least index at which `pat` occurs as a
substring of `s`, as `some i`, or `none` when `pat` does not occur. -/
def pyFindFrom (pat : Line) : Line → Option Nat
  | [] => if pat = [] then some 0 else none
  | c :: t =>
    if pat.isPrefixOf (c :: t) then some 0
    else (pyFindFrom pat t).map (· + 1)

/-- Python `s.find(pat)`: the least index of an occurrence of `pat` in `s`,
and `-1` when there is none. -/
def pyFind (s pat : Line) : Int :=
  match pyFindFrom pat s with
  | some n => (n : Int)
  | none => -1

/-- The scan loop of `get_version`: the value of `line` at the `break`, i.e.
the first line `l` of the file with `l.find('__version__') == 0`, or `none`
when the loop finishes without a `break`. -/
def findVersionLine : PyFile → Option Line
  | [] => none
  | l :: ls => if pyFind l VERSION_MARKER = 0 then some l else findVersionLine ls

theorem pyFindFrom_eq_some_zero_iff (pat s : Line) :
    pyFindFrom pat s = some 0 ↔ pat.isPrefixOf s = true := by
  cases s with
  | nil =>
    cases pat with
    | nil => simp [pyFindFrom, List.isPrefixOf]
    | cons p ps => simp [pyFindFrom, List.isPrefixOf]
  | cons c t =>
    by_cases h : pat.isPrefixOf (c :: t) = true
    · simp [pyFindFrom, h]
    · rw [pyFindFrom]
      rw [if_neg (by simp [h])]
      simp only [h, iff_false]
      cases hf : pyFindFrom pat t with
      | none => simp
      | some n => simp

/-- `s.find(pat) == 0` holds exactly when `pat` is a prefix of `s`. -/
theorem pyFind_eq_zero_iff (s pat : Line) :
    pyFind s pat = 0 ↔ pat.isPrefixOf s = true := by
  rw [← pyFindFrom_eq_some_zero_iff]
  unfold pyFind
  cases hf : pyFindFrom pat s with
  | none => simp
  | some n => simp

/-- A selected version line is a member of the file. -/
theorem findVersionLine_mem {file : PyFile} {l : Line}
    (h : findVersionLine file = some l) : l ∈ file := by
  induction file with
  | nil => cases h
  | cons x xs ih =>
    rw [findVersionLine] at h
    by_cases hx : pyFind x VERSION_MARKER = 0
    · rw [if_pos hx] at h
      injection h with h
      subst h
      exact List.mem_cons_self _ _
    · rw [if_neg hx] at h
      exact List.mem_cons_of_mem _ (ih h)

/-- When no line of the file starts with the marker, the scan finds nothing. -/
theorem findVersionLine_eq_none (file : PyFile)
    (h : ∀ l ∈ file, VERSION_MARKER.isPrefixOf l = false) :
    findVersionLine file = none := by
  induction file with
  | nil => rfl
  | cons x xs ih =>
    have h1 : VERSION_MARKER.isPrefixOf x = false := h x (List.mem_cons_self _ _)
    have h2 : ¬ pyFind x VERSION_MARKER = 0 := by
      intro hc
      rw [pyFind_eq_zero_iff, h1] at hc
      cases hc
    rw [findVersionLine, if_neg h2]
    exact ih (fun y hy => h y (List.mem_cons_of_mem _ hy))

/-- The scan selects the first marker line: earlier lines without the marker
at index 0 are skipped, lines after it are never read. -/
theorem findVersionLine_append (pre : PyFile) (l : Line) (post : PyFile)
    (hpre : ∀ x ∈ pre, pyFind x VERSION_MARKER ≠ 0)
    (hl : pyFind l VERSION_MARKER = 0) :
    findVersionLine (pre ++ l :: post) = some l := by
  induction pre with
  | nil =>
    rw [List.nil_append, findVersionLine, if_pos hl]
  | cons x xs ih =>
    have hx : pyFind x VERSION_MARKER ≠ 0 := hpre x (List.mem_cons_self _ _)
    rw [List.cons_append, findVersionLine, if_neg hx]
    exact ih (fun y hy => hpre y (List.mem_cons_of_mem _ hy))

/-- The characters Python `str.strip()` removes by default. -/
def isPySpace (c : Char) : Bool :=
  c = ' ' || c = '\t' || c = '\n' || c = '\r' || c = '\x0b' || c = '\x0c'

/-- Python `str.strip()`: drop whitespace from both ends. -/
def strip (s : Line) : Line :=
  ((s.dropWhile isPySpace).reverse.dropWhile isPySpace).reverse

/-- Split a line at its first occurrence of `sep`, when there is one. -/
def splitAtChar (sep : Char) : Line → Option (Line × Line)
  | [] => none
  | c :: t =>
    if c = sep then some ([], t)
    else (splitAtChar sep t).map (fun p => (c :: p.1, p.2))

/-- The single-quote character. -/
def squote : Char := Char.ofNat 39

/-- The characters that delimit a Python string literal. -/
def isQuote (c : Char) : Bool := c = squote || c = '"'

/-- A Python string literal written with one pair of matching quotes and no
escapes or embedded quote characters: its evaluated string value. -/
def parseStrLit : Line → Option Line
  | [] => none
  | q :: rest =>
    if isQuote q && rest.getLast? == some q
        && rest.dropLast.all (fun c => (c != q) && (c != '\\')) then
      some rest.dropLast
    else none

/-- A Python identifier: a letter or underscore followed by letters, digits
and underscores. -/
def isIdent : Line → Bool
  | [] => false
  | c :: t => (c.isAlpha || c = '_') && t.all (fun d => d.isAlphanum || d = '_')

/-- Model of `exec` on a string consisting of a single assignment of a
string literal: executing `name = <literal>` in a fresh namespace yields the
binding `(name, value)`; any other input yields `none` (an error before any
binding is made).  The coding comment `get_version` prepends to the line has
no effect on execution and is omitted from the model. -/
def execAssign (line : Line) : Option (Line × Line) :=
  match splitAtChar '=' line with
  | none => none
  | some (lhs, rhs) =>
    match parseStrLit (strip rhs) with
    | none => none
    | some v =>
      if isIdent (strip lhs) then some (strip lhs, v) else none

/-- The failure modes of the version extraction in setup.py. -/
inductive PyError where
  /-- No marker line was found, so `version_str` is still `None` and
  `exec(None, main_ns)` raises a TypeError. -/
  | typeError
  /-- The selected line is not a single assignment of a plain string
  literal, so `exec` fails before binding anything. -/
  | syntaxError
  /-- The namespace produced by `exec` has no key `__version__`, so the
  lookup `main_ns['__version__']` raises a KeyError. -/
  | keyError
  deriving DecidableEq

/-- setup.py `get_version`: scan the named file for the first line starting
with `__version__`, `exec` that line in the fresh namespace `main_ns` and
return `main_ns['__version__']`. -/
def get_version (file : PyFile) : Except PyError Line :=
  match findVersionLine file with
  | none => .error .typeError
  | some line =>
    match execAssign line with
    | none => .error .syntaxError
    | some (name, v) =>
      if name = VERSION_MARKER then .ok v else .error .keyError

/-- setup.py `get_readme`: `open('README.md', 'r').read()` returns the whole
contents of the file, which `get_readme` passes on unchanged. -/
def get_readme (readmeContents : Line) : Line := readmeContents

/-- The keyword arguments handed to `setuptools.setup` in setup.py. -/
structure SetupArgs where
  name : String
  version : Line
  description : String
  author : String
  author_email : String
  long_description : Line
  long_description_content_type : String
  url : String
  license : String
  classifiers : List String
  scripts : List String
  python_requires : String
  install_requires : List String
  deriving DecidableEq

/-- The top-level `setup(...)` call of setup.py.  Its arguments are
evaluated left to right before `setup` itself runs, so when `get_version()`
raises, the call never reaches `setup` and no package is produced. -/
def runSetupScript (versionFile : PyFile) (readmeContents : Line) :
    Except PyError SetupArgs :=
  match get_version versionFile with
  | .error e => .error e
  | .ok v =>
    .ok { name := "thermod-monitor-mqtt",
          version := v,
          description := "Forward Thermod temperature and current status to an MQTT broker",
          author := "Simone Rossetto",
          author_email := "simros85@gmail.com",
          long_description := get_readme readmeContents,
          long_description_content_type := "text/markdown",
          url := "https://github.com/droscy/thermod-monitor-mqtt",
          license := "GPL-3.0+",
          classifiers := ["Programming Language :: Python :: 3",
                          "License :: OSI Approved :: GNU General Public License v3 or later (GPLv3+)",
                          "Environment :: Console",
                          "Intended Audience :: End Users/Desktop",
                          "Operating System :: OS Independent",
                          "Topic :: Home Automation"],
          scripts := ["thermod-monitor-mqtt"],
          python_requires := ">=3.5",
          install_requires := ["thermod >=1.0.0, <2.0.0",
                               "requests >=2.20.0",
                               "paho-mqtt >=1.5.0"] }

/-- Comparison operators occurring in the declared version constraints. -/
inductive CmpOp where
  /-- at least the given version -/
  | ge
  /-- strictly below the given version -/
  | lt
  deriving DecidableEq

/-- One version bound: an operator and a dotted version number. -/
structure VersionBound where
  op : CmpOp
  ver : List Nat
  deriving DecidableEq

/-- A declared dependency: a package name and its version bounds. -/
structure Requirement where
  pkg : String
  bounds : List VersionBound
  deriving DecidableEq

/-- A nonempty all-digit string read as a number. -/
def parseNat (s : Line) : Option Nat :=
  if s ≠ [] && s.all Char.isDigit then
    some (s.foldl (fun n c => 10 * n + (c.toNat - 48)) 0)
  else none

/-- A dotted version number such as `2.20.0` read as a list of numbers. -/
def parseVer (s : Line) : Option (List Nat) :=
  (s.splitOn '.').mapM parseNat

/-- One bound such as `>=1.0.0` or `<2.0.0` (surrounding spaces allowed). -/
def parseBound (s : Line) : Option VersionBound :=
  let t := strip s
  if ['>', '='].isPrefixOf t then
    (parseVer (t.drop 2)).map (fun v => ⟨CmpOp.ge, v⟩)
  else if ['<'].isPrefixOf t then
    (parseVer (t.drop 1)).map (fun v => ⟨CmpOp.lt, v⟩)
  else none

/-- A requirement string of the form used in setup.py: a package name, a
space, then comma-separated version bounds. -/
def parseRequirement (s : String) : Option Requirement :=
  match splitAtChar ' ' s.data with
  | none => none
  | some (pkg, rest) =>
    match (rest.splitOn ',').mapM parseBound with
    | none => none
    | some bs => some ⟨String.mk pkg, bs⟩

/-- Extraction of the constant setup arguments from a successful run of the
setup script. -/
theorem runSetupScript_fields (file : PyFile) (readme : Line) (args : SetupArgs)
    (h : runSetupScript file readme = .ok args) :
    args.name = "thermod-monitor-mqtt" ∧
    args.long_description = readme ∧
    args.scripts = ["thermod-monitor-mqtt"] ∧
    args.python_requires = ">=3.5" ∧
    args.install_requires = ["thermod >=1.0.0, <2.0.0",
                             "requests >=2.20.0",
                             "paho-mqtt >=1.5.0"] := by
  unfold runSetupScript at h
  cases hv : get_version file with
  | error e => rw [hv] at h; exact Except.noConfusion h
  | ok v =>
    rw [hv] at h
    injection h with h
    subst h
    exact ⟨rfl, rfl, rfl, rfl, rfl⟩

/-- Helper: the selected line satisfies the scan condition
`line.find('__version__') == 0`. -/
theorem findVersionLine_pyFind (file : PyFile) (l : Line)
    (h : findVersionLine file = some l) : pyFind l VERSION_MARKER = 0 := by
  induction file with
  | nil => exact Option.noConfusion h
  | cons x xs ih =>
    rw [findVersionLine] at h
    by_cases hx : pyFind x VERSION_MARKER = 0
    · rw [if_pos hx] at h
      injection h with h
      subst h
      exact hx
    · rw [if_neg hx] at h
      exact ih h

/-- Claim C1: for a file containing a line that starts with the marker
`__version__` and is an assignment of a quoted string literal to
`__version__` — the line the scan selects, i.e. the first line starting with
the marker — `get_version` returns exactly that literal string. -/
theorem C1_get_version_returns_literal (pre : PyFile) (l : Line) (post : PyFile)
    (v : Line)
    (hpre : ∀ x ∈ pre, VERSION_MARKER.isPrefixOf x = false)
    (hl : VERSION_MARKER.isPrefixOf l = true)
    (hassign : execAssign l = some (VERSION_MARKER, v)) :
    get_version (pre ++ l :: post) = .ok v := by
  have hfind : findVersionLine (pre ++ l :: post) = some l := by
    refine findVersionLine_append pre l post ?_ ?_
    · intro x hx hc
      rw [pyFind_eq_zero_iff, hpre x hx] at hc
      exact Bool.noConfusion hc
    · exact (pyFind_eq_zero_iff l VERSION_MARKER).mpr hl
  unfold get_version
  rw [hfind]
  simp [hassign]

/-- Claim C2: for a file with no line starting with `__version__`,
`get_version` fails at the evaluation step (`exec` receives `None` and
raises a TypeError), and the `setup(...)` call is never reached, so the
whole script fails with that same error. -/
theorem C2_build_fails_without_marker (file : PyFile) (readme : Line)
    (h : ∀ l ∈ file, VERSION_MARKER.isPrefixOf l = false) :
    get_version file = .error .typeError ∧
    runSetupScript file readme = .error .typeError := by
  have hf := findVersionLine_eq_none file h
  have h1 : get_version file = .error .typeError := by
    unfold get_version
    rw [hf]
  refine ⟨h1, ?_⟩
  unfold runSetupScript
  rw [h1]

/-- Claim C3: whenever the setup script reaches `setup(...)`, the
`long_description` argument is exactly the contents of `README.md` read at
build time, and `get_readme` returns those contents verbatim. -/
theorem C3_long_description_is_readme (file : PyFile) (readme : Line)
    (args : SetupArgs) (h : runSetupScript file readme = .ok args) :
    args.long_description = readme ∧ get_readme readme = readme := by
  obtain ⟨-, h2, -, -, -⟩ := runSetupScript_fields file readme args h
  exact ⟨h2, rfl⟩

/-- Claim C4: the declared runtime dependencies are exactly `thermod` at
least 1.0.0 and below 2.0.0, `requests` at least 2.20.0 and `paho-mqtt` at
least 1.5.0, both as literal requirement strings and under the requirement
interpretation. -/
theorem C4_install_requires_bounds (file : PyFile) (readme : Line)
    (args : SetupArgs) (h : runSetupScript file readme = .ok args) :
    args.install_requires = ["thermod >=1.0.0, <2.0.0",
                             "requests >=2.20.0",
                             "paho-mqtt >=1.5.0"] ∧
    args.install_requires.map parseRequirement =
      [some ⟨"thermod", [⟨CmpOp.ge, [1, 0, 0]⟩, ⟨CmpOp.lt, [2, 0, 0]⟩]⟩,
       some ⟨"requests", [⟨CmpOp.ge, [2, 20, 0]⟩]⟩,
       some ⟨"paho-mqtt", [⟨CmpOp.ge, [1, 5, 0]⟩]⟩] := by
  obtain ⟨-, -, -, -, h5⟩ := runSetupScript_fields file readme args h
  refine ⟨h5, ?_⟩
  rw [h5]
  decide

/-- Claim C5: exactly one executable script entry point is declared, and its
name equals the package name `thermod-monitor-mqtt`: the scripts list is the
singleton list containing the name argument. -/
theorem C5_single_script_entry (file : PyFile) (readme : Line)
    (args : SetupArgs) (h : runSetupScript file readme = .ok args) :
    args.scripts = [args.name] ∧ args.name = "thermod-monitor-mqtt" := by
  obtain ⟨h1, -, h3, -, -⟩ := runSetupScript_fields file readme args h
  rw [h1]
  exact ⟨h3, rfl⟩

/-- Claim C6: the packaging metadata declares the minimum interpreter
version Python 3.5: the `python_requires` field is the string `>=3.5`,
which reads as the bound at-least version 3.5. -/
theorem C6_python_requires_min_version (file : PyFile) (readme : Line)
    (args : SetupArgs) (h : runSetupScript file readme = .ok args) :
    args.python_requires = ">=3.5" ∧
    parseBound args.python_requires.data = some ⟨CmpOp.ge, [3, 5]⟩ := by
  obtain ⟨-, -, -, h4, -⟩ := runSetupScript_fields file readme args h
  rw [h4]
  exact ⟨rfl, by decide⟩

/-- Claim C7: the result of `get_version` depends only on the first line of
the file starting with `__version__`: two files whose scans select the same
line yield the same result, whatever their other lines (later marker lines
are never read past the `break`). -/
theorem C7_depends_only_on_first_marker_line (f1 f2 : PyFile) (l : Line)
    (h1 : findVersionLine f1 = some l) (h2 : findVersionLine f2 = some l) :
    get_version f1 = get_version f2 := by
  unfold get_version
  rw [h1, h2]

/-- Claim C8: only a line with the marker at index 0 is ever selected by the
scan: the selected line satisfies `line.find('__version__') == 0`, i.e.
`__version__` is a prefix of it, so a line containing the marker anywhere
else is never selected. -/
theorem C8_only_marker_at_start_selected (file : PyFile) (l : Line)
    (h : findVersionLine file = some l) :
    pyFind l VERSION_MARKER = 0 ∧ VERSION_MARKER.isPrefixOf l = true := by
  have h0 := findVersionLine_pyFind file l h
  exact ⟨h0, (pyFind_eq_zero_iff l VERSION_MARKER).mp h0⟩

/-- Claim C9: when the selected marker line is a well-formed assignment that
binds a name other than `__version__`, the lookup `main_ns['__version__']`
fails with a KeyError, so the build still fails rather than returning a
wrong value. -/
theorem C9_wrong_name_raises_keyerror (file : PyFile) (l nm v : Line)
    (hfind : findVersionLine file = some l)
    (hexec : execAssign l = some (nm, v))
    (hne : nm ≠ VERSION_MARKER) :
    get_version file = .error .keyError := by
  unfold get_version
  rw [hfind]
  simp only [hexec]
  rw [if_neg hne]

/-- A concrete monitor-script file whose first marker line assigns the
version string 1.2.0. -/
def sampleVersionFile : PyFile :=
  ["#!/usr/bin/env python3".data,
   "__version__ = \"1.2.0\"".data,
   "print(__version__)".data]

/-- Concrete README contents. -/
def sampleReadme : Line := "# Thermod monitor for MQTT brokers".data

/-- The setup arguments produced on the sample inputs. -/
def sampleArgs : SetupArgs :=
  { name := "thermod-monitor-mqtt",
    version := "1.2.0".data,
    description := "Forward Thermod temperature and current status to an MQTT broker",
    author := "Simone Rossetto",
    author_email := "simros85@gmail.com",
    long_description := sampleReadme,
    long_description_content_type := "text/markdown",
    url := "https://github.com/droscy/thermod-monitor-mqtt",
    license := "GPL-3.0+",
    classifiers := ["Programming Language :: Python :: 3",
                    "License :: OSI Approved :: GNU General Public License v3 or later (GPLv3+)",
                    "Environment :: Console",
                    "Intended Audience :: End Users/Desktop",
                    "Operating System :: OS Independent",
                    "Topic :: Home Automation"],
    scripts := ["thermod-monitor-mqtt"],
    python_requires := ">=3.5",
    install_requires := ["thermod >=1.0.0, <2.0.0",
                         "requests >=2.20.0",
                         "paho-mqtt >=1.5.0"] }

/-- Witness for C1 at a concrete file. -/
theorem C1_witness :
    get_version (["# header".data] ++
        "__version__ = \"1.2.0\"".data :: ["other = \"x\"".data]) =
      .ok "1.2.0".data :=
  C1_get_version_returns_literal ["# header".data]
    ("__version__ = \"1.2.0\"".data) ["other = \"x\"".data] ("1.2.0".data)
    (by decide) (by decide) (by decide)

/-- Witness for C2 at a concrete marker-free file. -/
theorem C2_witness :
    get_version ["import sys".data, "x = 1".data] = .error .typeError ∧
    runSetupScript ["import sys".data, "x = 1".data] "# readme".data =
      .error .typeError :=
  C2_build_fails_without_marker ["import sys".data, "x = 1".data]
    ("# readme".data) (by decide)

/-- Witness for C3 at the sample inputs. -/
theorem C3_witness :
    sampleArgs.long_description = sampleReadme ∧
    get_readme sampleReadme = sampleReadme :=
  C3_long_description_is_readme sampleVersionFile sampleReadme sampleArgs rfl

/-- Witness for C4 at the sample inputs. -/
theorem C4_witness :
    sampleArgs.install_requires = ["thermod >=1.0.0, <2.0.0",
                                   "requests >=2.20.0",
                                   "paho-mqtt >=1.5.0"] ∧
    sampleArgs.install_requires.map parseRequirement =
      [some ⟨"thermod", [⟨CmpOp.ge, [1, 0, 0]⟩, ⟨CmpOp.lt, [2, 0, 0]⟩]⟩,
       some ⟨"requests", [⟨CmpOp.ge, [2, 20, 0]⟩]⟩,
       some ⟨"paho-mqtt", [⟨CmpOp.ge, [1, 5, 0]⟩]⟩] :=
  C4_install_requires_bounds sampleVersionFile sampleReadme sampleArgs rfl

/-- Witness for C5 at the sample inputs. -/
theorem C5_witness :
    sampleArgs.scripts = [sampleArgs.name] ∧
    sampleArgs.name = "thermod-monitor-mqtt" :=
  C5_single_script_entry sampleVersionFile sampleReadme sampleArgs rfl

/-- Witness for C6 at the sample inputs. -/
theorem C6_witness :
    sampleArgs.python_requires = ">=3.5" ∧
    parseBound sampleArgs.python_requires.data = some ⟨CmpOp.ge, [3, 5]⟩ :=
  C6_python_requires_min_version sampleVersionFile sampleReadme sampleArgs rfl

/-- Witness for C7: two files sharing their first marker line, one with an
extra later marker line, give the same version. -/
theorem C7_witness :
    get_version ["__version__ = \"7.7\"".data] =
      get_version ["# a".data,
                   "__version__ = \"7.7\"".data,
                   "__version__ = \"8.8\"".data] :=
  C7_depends_only_on_first_marker_line ["__version__ = \"7.7\"".data]
    ["# a".data, "__version__ = \"7.7\"".data, "__version__ = \"8.8\"".data]
    ("__version__ = \"7.7\"".data) (by decide) (by decide)

/-- Witness for C8: an indented marker line is skipped and the selected line
has the marker at index 0. -/
theorem C8_witness :
    pyFind ("__version__ = \"2\"".data) VERSION_MARKER = 0 ∧
    VERSION_MARKER.isPrefixOf ("__version__ = \"2\"".data) = true :=
  C8_only_marker_at_start_selected
    ["  __version__ = \"1\"".data, "__version__ = \"2\"".data]
    ("__version__ = \"2\"".data) (by decide)

/-- Witness for C9: a line binding `__version__extra` makes `get_version`
fail with a KeyError. -/
theorem C9_witness :
    get_version ["__version__extra = \"0.1\"".data] = .error .keyError :=
  C9_wrong_name_raises_keyerror ["__version__extra = \"0.1\"".data]
    ("__version__extra = \"0.1\"".data) ("__version__extra".data)
    ("0.1".data) (by decide) (by decide) (by decide)
